import Mathlib

/-!
Verification of the core-hue occupancy-to-lighting bridge.

This file gives a shallow embedding of the program's pure core:
the name sanitizer, the persisted-state mutators, the occupancy and
day/night reconciliation branches of the message handler (from the
`part_001` variant, with the `main.js` solar branch embedded separately
where the two variants differ), and the authentication-join logic of
`validateBridges`.  Asynchronous bridge replies (the group list fetched
from `hue.groups.getAll()`) are passed in as explicit inputs, and side
effects (persist-file writes, group saves, status publishes) are
returned as explicit data.
-/

namespace CoreHue

/-! ## Name sanitizer

`sanitizeName` in the source is
`str.replace(/[^\w\s_\-]/g, "").replace(/\s+/g, " ").trim().toLowerCase()`.
Character classes are modelled on code points: `\w` is ASCII letters,
digits and underscore; `\s` is the ECMAScript WhiteSpace plus
LineTerminator set. -/

/-- Code points matched by the JS regex class `\s` (ECMAScript WhiteSpace
and LineTerminator code points). -/
def wsNat (n : Nat) : Bool :=
  n = 9 || n = 10 || n = 11 || n = 12 || n = 13 || n = 32 ||
  n = 0xa0 || n = 0x1680 || (0x2000 ≤ n && n ≤ 0x200a) ||
  n = 0x2028 || n = 0x2029 || n = 0x202f || n = 0x205f || n = 0x3000 || n = 0xfeff

/-- Code points matched by the JS regex class `\w`: ASCII letters, digits,
and underscore. -/
def wordNat (n : Nat) : Bool :=
  (65 ≤ n && n ≤ 90) || (97 ≤ n && n ≤ 122) || (48 ≤ n && n ≤ 57) || n = 95

/-- Code points KEPT by `replace(/[^\w\s_\-]/g, "")`: word characters,
whitespace, underscore (code 95) and hyphen (code 45). -/
def keepNat (n : Nat) : Bool :=
  wordNat n || wsNat n || n = 95 || n = 45

def isJsWhitespace (c : Char) : Bool := wsNat c.toNat

def keepChar (c : Char) : Bool := keepNat c.toNat

/-- `String.prototype.toLowerCase()` on the basic latin range; every
character that survives the earlier sanitizer steps lies in this range. -/
def jsToLower (c : Char) : Char :=
  if 65 ≤ c.toNat && c.toNat ≤ 90 then Char.ofNat (c.toNat + 32) else c

/-- `replace(/\s+/g, " ")`: each maximal whitespace run becomes one space. -/
def collapseWs : List Char → List Char
  | [] => []
  | [c] => if isJsWhitespace c then [' '] else [c]
  | c :: d :: rest =>
    if isJsWhitespace c then
      (if isJsWhitespace d then collapseWs (d :: rest) else ' ' :: collapseWs (d :: rest))
    else c :: collapseWs (d :: rest)

/-- `trim()`: remove leading and trailing whitespace. -/
def trimWs (l : List Char) : List Char :=
  (l.dropWhile isJsWhitespace).rdropWhile isJsWhitespace

/-- The sanitizer pipeline on a list of characters: strip characters
outside `[\w\s_\-]`, collapse whitespace runs, trim, lowercase. -/
def sanitizeList (l : List Char) : List Char :=
  (trimWs (collapseWs (l.filter keepChar))).map jsToLower

/-- `sanitizeName` from the source. -/
def sanitizeName (s : String) : String :=
  ⟨sanitizeList s.data⟩

/-! ### Character-level lemmas -/

theorem toNat_ofNat_of_lt {n : Nat} (h : n < 0xd800) : (Char.ofNat n).toNat = n := by
  unfold Char.ofNat
  rw [dif_pos (Or.inl h)]
  rfl

theorem toNat_jsToLower (c : Char) :
    (jsToLower c).toNat = if 65 ≤ c.toNat ∧ c.toNat ≤ 90 then c.toNat + 32 else c.toNat := by
  unfold jsToLower
  by_cases h : 65 ≤ c.toNat ∧ c.toNat ≤ 90
  · rw [if_pos h, if_pos (by simpa using h)]
    exact toNat_ofNat_of_lt (by omega)
  · rw [if_neg h, if_neg (by simpa using h)]

theorem wsNat_false_of_mid {n : Nat} (h1 : 45 ≤ n) (h2 : n ≤ 122) : wsNat n = false := by
  simp only [wsNat, Bool.or_eq_false_iff, decide_eq_false_iff_not, Bool.and_eq_false_iff,
    not_le]
  omega

theorem ws_jsToLower (c : Char) : isJsWhitespace (jsToLower c) = isJsWhitespace c := by
  unfold isJsWhitespace
  rw [toNat_jsToLower]
  by_cases h : 65 ≤ c.toNat ∧ c.toNat ≤ 90
  · rw [if_pos h, wsNat_false_of_mid (by omega) (by omega),
      wsNat_false_of_mid (by omega) (by omega)]
  · rw [if_neg h]

theorem keep_jsToLower {c : Char} (h : keepChar c = true) : keepChar (jsToLower c) = true := by
  by_cases hu : 65 ≤ c.toNat ∧ c.toNat ≤ 90
  · unfold keepChar
    rw [toNat_jsToLower, if_pos hu]
    simp only [keepNat, wordNat, wsNat, Bool.or_eq_true, Bool.and_eq_true, decide_eq_true_eq]
    omega
  · unfold jsToLower
    rw [if_neg (by simpa using hu)]
    exact h

theorem jsToLower_fixed {c : Char} (h : ¬(65 ≤ c.toNat ∧ c.toNat ≤ 90)) : jsToLower c = c := by
  unfold jsToLower
  rw [if_neg (by simpa using h)]

theorem jsToLower_idem (c : Char) : jsToLower (jsToLower c) = jsToLower c := by
  by_cases hu : 65 ≤ c.toNat ∧ c.toNat ≤ 90
  · apply jsToLower_fixed
    rw [toNat_jsToLower, if_pos hu]
    omega
  · rw [jsToLower_fixed hu, jsToLower_fixed hu]

theorem eq_space_of_toNat (c : Char) (h : c.toNat = 32) : c = ' ' := by
  have h2 := Char.ofNat_toNat c
  rw [h] at h2
  exact h2.symm

theorem jsToLower_space : jsToLower ' ' = ' ' := by decide

theorem keep_space : keepChar ' ' = true := by decide

/-! ### Whitespace-collapse lemmas -/

/-- No two adjacent whitespace characters occur in the list. -/
def noAdjWs : List Char → Bool
  | [] => true
  | [_] => true
  | c :: d :: rest => !(isJsWhitespace c && isJsWhitespace d) && noAdjWs (d :: rest)

theorem collapseWs_nil : collapseWs [] = [] := rfl

theorem collapseWs_singleton (c : Char) :
    collapseWs [c] = if isJsWhitespace c then [' '] else [c] := rfl

theorem collapseWs_cons_cons (c d : Char) (rest : List Char) :
    collapseWs (c :: d :: rest) =
      if isJsWhitespace c then
        (if isJsWhitespace d then collapseWs (d :: rest) else ' ' :: collapseWs (d :: rest))
      else c :: collapseWs (d :: rest) := rfl

theorem noAdjWs_cons_cons (c d : Char) (rest : List Char) :
    noAdjWs (c :: d :: rest) =
      (!(isJsWhitespace c && isJsWhitespace d) && noAdjWs (d :: rest)) := rfl

theorem noAdjWs_tail {c : Char} {cs : List Char} (h : noAdjWs (c :: cs) = true) :
    noAdjWs cs = true := by
  match cs with
  | [] => rfl
  | d :: rest =>
    rw [noAdjWs_cons_cons] at h
    exact (Bool.and_eq_true_iff.mp h).2

theorem noAdjWs_cons_of_not_ws {c : Char} (h : isJsWhitespace c = false) (cs : List Char) :
    noAdjWs (c :: cs) = noAdjWs cs := by
  match cs with
  | [] => rfl
  | d :: rest =>
    rw [noAdjWs_cons_cons, h]
    simp

theorem collapseWs_cons_not_ws {c : Char} (h : isJsWhitespace c = false) (cs : List Char) :
    collapseWs (c :: cs) = c :: collapseWs cs := by
  match cs with
  | [] => rw [collapseWs_singleton, h]; simp [collapseWs_nil]
  | d :: rest => rw [collapseWs_cons_cons, h]; simp

theorem mem_collapseWs : ∀ (l : List Char), ∀ c ∈ collapseWs l, c = ' ' ∨ c ∈ l
  | [], c, h => by simp [collapseWs_nil] at h
  | [a], c, h => by
    rw [collapseWs_singleton] at h
    by_cases hws : isJsWhitespace a = true
    · rw [hws] at h; simp at h; simp [h]
    · rw [Bool.not_eq_true] at hws; rw [hws] at h; simp at h; simp [h]
  | a :: d :: rest, c, h => by
    rw [collapseWs_cons_cons] at h
    by_cases hws : isJsWhitespace a = true
    · rw [hws] at h
      simp only [if_true] at h
      by_cases hd : isJsWhitespace d = true
      · rw [hd] at h
        simp only [if_true] at h
        rcases mem_collapseWs (d :: rest) c h with h1 | h1
        · exact Or.inl h1
        · exact Or.inr (List.mem_cons_of_mem _ h1)
      · rw [Bool.not_eq_true] at hd
        rw [hd] at h
        simp only [Bool.false_eq_true, if_false, List.mem_cons] at h
        rcases h with h1 | h1
        · exact Or.inl h1
        · rcases mem_collapseWs (d :: rest) c h1 with h2 | h2
          · exact Or.inl h2
          · exact Or.inr (List.mem_cons_of_mem _ h2)
    · rw [Bool.not_eq_true] at hws
      rw [hws] at h
      simp only [Bool.false_eq_true, if_false, List.mem_cons] at h
      rcases h with h1 | h1
      · subst h1; exact Or.inr (List.mem_cons_self _ _)
      · rcases mem_collapseWs (d :: rest) c h1 with h2 | h2
        · exact Or.inl h2
        · exact Or.inr (List.mem_cons_of_mem _ h2)

theorem collapseWs_ws_space : ∀ (l : List Char), ∀ c ∈ collapseWs l,
    isJsWhitespace c = true → c = ' '
  | [], c, h => by simp [collapseWs_nil] at h
  | [a], c, h => by
    intro hwc
    rw [collapseWs_singleton] at h
    by_cases hws : isJsWhitespace a = true
    · rw [hws] at h; simp at h; exact h
    · rw [Bool.not_eq_true] at hws; rw [hws] at h; simp at h
      subst h; rw [hwc] at hws; cases hws
  | a :: d :: rest, c, h => by
    intro hwc
    rw [collapseWs_cons_cons] at h
    by_cases hws : isJsWhitespace a = true
    · rw [hws] at h
      simp only [if_true] at h
      by_cases hd : isJsWhitespace d = true
      · rw [hd] at h
        simp only [if_true] at h
        exact collapseWs_ws_space (d :: rest) c h hwc
      · rw [Bool.not_eq_true] at hd
        rw [hd] at h
        simp only [Bool.false_eq_true, if_false, List.mem_cons] at h
        rcases h with h1 | h1
        · exact h1
        · exact collapseWs_ws_space (d :: rest) c h1 hwc
    · rw [Bool.not_eq_true] at hws
      rw [hws] at h
      simp only [Bool.false_eq_true, if_false, List.mem_cons] at h
      rcases h with h1 | h1
      · subst h1; rw [hwc] at hws; cases hws
      · exact collapseWs_ws_space (d :: rest) c h1 hwc

theorem noAdjWs_collapseWs : ∀ (l : List Char), noAdjWs (collapseWs l) = true
  | [] => rfl
  | [a] => by
    rw [collapseWs_singleton]
    by_cases hws : isJsWhitespace a = true
    · rw [hws]; rfl
    · rw [Bool.not_eq_true] at hws; rw [hws]; simp; rfl
  | a :: d :: rest => by
    rw [collapseWs_cons_cons]
    by_cases hws : isJsWhitespace a = true
    · rw [hws]
      simp only [if_true]
      by_cases hd : isJsWhitespace d = true
      · rw [hd]
        simp only [if_true]
        exact noAdjWs_collapseWs (d :: rest)
      · rw [Bool.not_eq_true] at hd
        rw [hd]
        simp only [Bool.false_eq_true, if_false]
        rw [collapseWs_cons_not_ws hd, noAdjWs_cons_cons, hd]
        simp only [Bool.and_false, Bool.not_false, Bool.true_and]
        rw [← collapseWs_cons_not_ws hd]
        exact noAdjWs_collapseWs (d :: rest)
    · rw [Bool.not_eq_true] at hws
      rw [hws]
      simp only [Bool.false_eq_true, if_false]
      rw [noAdjWs_cons_of_not_ws hws]
      exact noAdjWs_collapseWs (d :: rest)

theorem collapseWs_fixed : ∀ (l : List Char),
    (∀ c ∈ l, isJsWhitespace c = true → c = ' ') → noAdjWs l = true → collapseWs l = l
  | [], _, _ => rfl
  | [a], hsp, _ => by
    rw [collapseWs_singleton]
    by_cases hws : isJsWhitespace a = true
    · rw [hws]
      simp only [if_true]
      rw [hsp a (List.mem_singleton_self a) hws]
    · rw [Bool.not_eq_true] at hws
      rw [hws]
      simp
  | a :: d :: rest, hsp, hadj => by
    rw [collapseWs_cons_cons]
    by_cases hws : isJsWhitespace a = true
    · have hd : isJsWhitespace d = false := by
        rw [noAdjWs_cons_cons] at hadj
        have h2 := (Bool.and_eq_true_iff.mp hadj).1
        rw [hws] at h2
        simpa using h2
      rw [hws, hd]
      simp only [Bool.false_eq_true, if_false, if_true]
      rw [hsp a (List.mem_cons_self _ _) hws]
      rw [collapseWs_fixed (d :: rest) (fun c hc => hsp c (List.mem_cons_of_mem _ hc))
        (noAdjWs_tail hadj)]
    · rw [Bool.not_eq_true] at hws
      rw [hws]
      simp only [Bool.false_eq_true, if_false]
      rw [collapseWs_fixed (d :: rest) (fun c hc => hsp c (List.mem_cons_of_mem _ hc))
        (noAdjWs_tail hadj)]

/-! ### Trim and map lemmas -/

theorem noAdjWs_front : ∀ (l l' : List Char), l' <+: l → noAdjWs l = true → noAdjWs l' = true
  | _, [], _, _ => rfl
  | _, [_], _, _ => rfl
  | l, c :: d :: rest, hp, h => by
    match l, hp with
    | c' :: l2, hp =>
      obtain ⟨rfl, hp2⟩ := List.cons_prefix_cons.mp hp
      match l2, hp2 with
      | d' :: l3, hp2 =>
        obtain ⟨rfl, hp3⟩ := List.cons_prefix_cons.mp hp2
        rw [noAdjWs_cons_cons] at h ⊢
        refine Bool.and_eq_true_iff.mpr ⟨(Bool.and_eq_true_iff.mp h).1, ?_⟩
        exact noAdjWs_front (d :: l3) (d :: rest) (List.cons_prefix_cons.mpr ⟨rfl, hp3⟩)
          (Bool.and_eq_true_iff.mp h).2

theorem noAdjWs_suffix : ∀ (l l' : List Char), l' <:+ l → noAdjWs l = true → noAdjWs l' = true
  | [], l', hs, _ => by
    rw [List.suffix_nil.mp hs]; rfl
  | c :: cs, l', hs, h => by
    rcases List.suffix_cons_iff.mp hs with h1 | h1
    · subst h1; exact h
    · exact noAdjWs_suffix cs l' h1 (noAdjWs_tail h)

theorem head_dropWhile_not {p : Char → Bool} :
    ∀ (l : List Char) (c : Char), (l.dropWhile p).head? = some c → p c = false
  | [], c, h => by simp at h
  | a :: cs, c, h => by
    by_cases hp : p a = true
    · rw [List.dropWhile_cons_of_pos hp] at h
      exact head_dropWhile_not cs c h
    · rw [Bool.not_eq_true] at hp
      rw [List.dropWhile_cons_of_neg (by simp [hp])] at h
      simp at h
      subst h
      exact hp

theorem prefix_head? {l l' : List Char} (hp : l' <+: l) (hne : l' ≠ []) :
    l'.head? = l.head? := by
  obtain ⟨t, rfl⟩ := hp
  match l' with
  | [] => exact absurd rfl hne
  | c :: cs => rfl

theorem getLast?_rdropWhile_not {p : Char → Bool} (l : List Char) (c : Char)
    (h : (l.rdropWhile p).getLast? = some c) : p c = false := by
  have hne : l.rdropWhile p ≠ [] := by
    intro he
    rw [he] at h
    simp at h
  have h2 := List.rdropWhile_last_not (l := l) (p := p) hne
  rw [List.getLast?_eq_getLast _ hne] at h
  have h3 : (l.rdropWhile p).getLast hne = c := by injection h
  rw [h3] at h2
  simpa using h2

theorem dropWhile_eq_self_of_head {p : Char → Bool} (l : List Char)
    (h : ∀ c, l.head? = some c → p c = false) : l.dropWhile p = l := by
  match l with
  | [] => rfl
  | c :: cs =>
    have h2 := h c rfl
    rw [List.dropWhile_cons_of_neg (by simp [h2])]

theorem rdropWhile_eq_self_of_last {p : Char → Bool} (l : List Char)
    (h : ∀ c, l.getLast? = some c → p c = false) : l.rdropWhile p = l := by
  rw [List.rdropWhile_eq_self_iff]
  intro hl
  have h2 := h (l.getLast hl) (List.getLast?_eq_getLast _ hl)
  simp [h2]

theorem map_eq_self_of_fixed {f : Char → Char} :
    ∀ (l : List Char), (∀ c ∈ l, f c = c) → l.map f = l
  | [], _ => rfl
  | c :: cs, h => by
    rw [List.map_cons, h c (List.mem_cons_self _ _),
      map_eq_self_of_fixed cs (fun d hd => h d (List.mem_cons_of_mem _ hd))]

theorem noAdjWs_map {f : Char → Char} (hf : ∀ c, isJsWhitespace (f c) = isJsWhitespace c) :
    ∀ (l : List Char), noAdjWs l = true → noAdjWs (l.map f) = true
  | [], _ => rfl
  | [_], _ => rfl
  | c :: d :: rest, h => by
    rw [List.map_cons, List.map_cons, noAdjWs_cons_cons, hf, hf]
    rw [noAdjWs_cons_cons] at h
    refine Bool.and_eq_true_iff.mpr ⟨(Bool.and_eq_true_iff.mp h).1, ?_⟩
    rw [← List.map_cons]
    exact noAdjWs_map hf (d :: rest) (Bool.and_eq_true_iff.mp h).2

theorem getLast?_map_chars (f : Char → Char) (l : List Char) :
    (l.map f).getLast? = l.getLast?.map f := by
  rw [List.getLast?_eq_head?_reverse, List.getLast?_eq_head?_reverse, ← List.map_reverse,
    List.head?_map]

/-! ### Sanitizer output characterization and idempotence -/

/-- Shape of any string produced by the sanitizer: only kept characters,
whitespace normalized to single interior spaces, no leading/trailing
whitespace, and lowercase-stable. -/
structure SanitizedChars (l : List Char) : Prop where
  keep : ∀ c ∈ l, keepChar c = true
  wsSpace : ∀ c ∈ l, isJsWhitespace c = true → c = ' '
  adj : noAdjWs l = true
  headNw : ∀ c, l.head? = some c → isJsWhitespace c = false
  lastNw : ∀ c, l.getLast? = some c → isJsWhitespace c = false
  lower : ∀ c ∈ l, jsToLower c = c

theorem sanitized_sanitizeList (l : List Char) : SanitizedChars (sanitizeList l) := by
  have hsubTrim : ∀ c ∈ trimWs (collapseWs (l.filter keepChar)),
      c ∈ collapseWs (l.filter keepChar) := by
    intro c hc
    have h1 := List.rdropWhile_prefix isJsWhitespace
      ((collapseWs (l.filter keepChar)).dropWhile isJsWhitespace)
    have h2 := List.dropWhile_suffix isJsWhitespace (l := collapseWs (l.filter keepChar))
    exact h2.subset (h1.subset hc)
  have hkeepTrim : ∀ c ∈ trimWs (collapseWs (l.filter keepChar)), keepChar c = true := by
    intro c hc
    rcases mem_collapseWs _ c (hsubTrim c hc) with h1 | h1
    · rw [h1]; exact keep_space
    · exact List.of_mem_filter h1
  have hwsTrim : ∀ c ∈ trimWs (collapseWs (l.filter keepChar)),
      isJsWhitespace c = true → c = ' ' := by
    intro c hc hw
    exact collapseWs_ws_space _ c (hsubTrim c hc) hw
  have hadjTrim : noAdjWs (trimWs (collapseWs (l.filter keepChar))) = true := by
    apply noAdjWs_front _ _ ( List.rdropWhile_prefix _ _)
    apply noAdjWs_suffix _ _ (List.dropWhile_suffix _)
    exact noAdjWs_collapseWs _
  refine ⟨?_, ?_, ?_, ?_, ?_, ?_⟩
  · intro c hc
    rcases List.mem_map.mp hc with ⟨d, hd, rfl⟩
    exact keep_jsToLower (hkeepTrim d hd)
  · intro c hc hw
    rcases List.mem_map.mp hc with ⟨d, hd, rfl⟩
    rw [ws_jsToLower] at hw
    rw [hwsTrim d hd hw]
    exact jsToLower_space
  · exact noAdjWs_map ws_jsToLower _ hadjTrim
  · intro c hc
    unfold sanitizeList at hc
    rw [List.head?_map] at hc
    match hh : (trimWs (collapseWs (l.filter keepChar))).head? with
    | none => rw [hh] at hc; simp at hc
    | some d =>
      rw [hh] at hc
      simp only [Option.map_some', Option.some.injEq] at hc
      have hd2 : ((collapseWs (l.filter keepChar)).dropWhile isJsWhitespace).head? = some d := by
        have hne : trimWs (collapseWs (l.filter keepChar)) ≠ [] := by
          intro he; rw [he] at hh; simp at hh
        rw [← prefix_head? ( List.rdropWhile_prefix _ _) hne]
        exact hh
      have h3 := head_dropWhile_not _ d hd2
      rw [← hc, ws_jsToLower]
      exact h3
  · intro c hc
    unfold sanitizeList at hc
    rw [getLast?_map_chars] at hc
    match hh : (trimWs (collapseWs (l.filter keepChar))).getLast? with
    | none => rw [hh] at hc; simp at hc
    | some d =>
      rw [hh] at hc
      simp only [Option.map_some', Option.some.injEq] at hc
      have h3 := getLast?_rdropWhile_not _ d hh
      rw [← hc, ws_jsToLower]
      exact h3
  · intro c hc
    rcases List.mem_map.mp hc with ⟨d, _, rfl⟩
    exact jsToLower_idem d

theorem sanitizeList_fixed {l : List Char} (h : SanitizedChars l) : sanitizeList l = l := by
  unfold sanitizeList trimWs
  rw [List.filter_eq_self.mpr h.keep]
  rw [collapseWs_fixed l h.wsSpace h.adj]
  rw [dropWhile_eq_self_of_head l (fun c hc => h.headNw c hc)]
  rw [rdropWhile_eq_self_of_last l (fun c hc => h.lastNw c hc)]
  exact map_eq_self_of_fixed l h.lower

theorem sanitizeList_idem (l : List Char) : sanitizeList (sanitizeList l) = sanitizeList l :=
  sanitizeList_fixed (sanitized_sanitizeList l)

/-! ## Persisted state and the message handlers (part_001 variant)

JS objects used as string-keyed dictionaries are modelled as association
lists; `objGet` is property read (returning `none` for an absent key, the
JS `undefined`), `objSet` is property assignment. -/

def objGet {β : Type} : List (String × β) → String → Option β
  | [], _ => none
  | (k, v) :: rest, key => if k = key then some v else objGet rest key

def objSet {β : Type} : List (String × β) → String → β → List (String × β)
  | [], key, v => [(key, v)]
  | (k, w) :: rest, key, v =>
    if k = key then (k, v) :: rest else (k, w) :: objSet rest key v

theorem objGet_objSet_self {β : Type} :
    ∀ (m : List (String × β)) (k : String) (v : β), objGet (objSet m k v) k = some v
  | [], k, v => by simp [objGet, objSet]
  | (k', w) :: rest, k, v => by
    by_cases h : k' = k
    · simp [objGet, objSet, h]
    · simp only [objSet, if_neg h, objGet, if_neg h]
      exact objGet_objSet_self rest k v

/-- The `data` record persisted to `/data/hue/hue.json`. -/
structure HueData where
  hueUsername : Option String
  sensorVals : List (String × Bool)
  sensorNames : List (String × String)
  sensorNameById : List (String × String)
deriving Repr, DecidableEq

/-- The initial `data` value before any cache is read. -/
def initialData : HueData :=
  { hueUsername := none, sensorVals := [], sensorNames := [], sensorNameById := [] }

/-- The module-level mutable state of part_001: `data`, `isNight`
(`none` models the JS `undefined`), `onlyControlAtNight`, and whether the
`hue` bridge handle is non-null. -/
structure AppState where
  data : HueData
  isNight : Option Bool
  onlyControlAtNight : Bool
  hue : Bool
deriving Repr, DecidableEq

/-- A Hue group as fetched from and saved to the bridge. -/
structure Group where
  name : String
  «on» : Bool
deriving Repr, DecidableEq

/-- Result of `sensorValChanged`: the updated `data`, the returned
boolean, and how many times `persistDataFile` was invoked. -/
structure ValChange where
  data : HueData
  changed : Bool
  persists : Nat
deriving Repr, DecidableEq

/-- `sensorValChanged(sensorId, occupied)` from part_001: no-op returning
false when the stored value strictly equals the new one, otherwise store
and persist. -/
def sensorValChanged (d : HueData) (sensorId : String) (occupied : Bool) : ValChange :=
  if objGet d.sensorVals sensorId = some occupied then ⟨d, false, 0⟩
  else ⟨{ d with sensorVals := objSet d.sensorVals sensorId occupied }, true, 1⟩

/-- `updateSensorName(sensorId, sensorName)` from part_001; the second
component counts `persistDataFile` calls. -/
def updateSensorName (d : HueData) (sensorId sensorName : String) : HueData × Nat :=
  if objGet d.sensorNames sensorName = some sensorId then (d, 0)
  else ({ d with sensorNames := objSet d.sensorNames sensorName sensorId,
                 sensorNameById := objSet d.sensorNameById sensorId sensorName }, 1)

/-- `saveUsername(name)` from part_001: set the credential and persist. -/
def saveUsername (d : HueData) (name : Option String) : HueData × Nat :=
  ({ d with hueUsername := name }, 1)

/-- Result of a user-initiated `disconnect()`. `publishedStatus = none`
models `publish(null)`, the empty retained publish that clears the status
topic. -/
structure DisconnectResult where
  st : AppState
  persists : Nat
  publishedStatus : Option String
deriving Repr, DecidableEq

/-- `disconnect()` from part_001: `saveUsername(null); hue = null;
publish(null)`. -/
def disconnect (st : AppState) : DisconnectResult :=
  { st := { st with data := (saveUsername st.data none).1, hue := false },
    persists := (saveUsername st.data none).2,
    publishedStatus := none }

/-- The group loop of the occupancy branch (part_001 lines 199-207): find
the first group whose sanitized name equals the sensor's canonical name,
update its on-state per policy, save it and stop.  The returned list is
the sequence of `hue.groups.save` calls. -/
def occupancyScan (groups : List Group) (sensorName : String) (occupied : Bool)
    (isNight : Option Bool) (onlyControlAtNight : Bool) : List Group :=
  match groups with
  | [] => []
  | g :: rest =>
    if sanitizeName g.name = sensorName then
      if occupied && (isNight.getD false || !onlyControlAtNight) then [{ g with «on» := true }]
      else if !occupied then [{ g with «on» := false }]
      else [g]
    else occupancyScan rest sensorName occupied isNight onlyControlAtNight

/-- Result of one occupancy message: the new state, the number of
`persistDataFile` calls, whether `hue.groups.getAll()` was invoked, and
the `hue.groups.save` calls in order. -/
structure OccResult where
  st : AppState
  persists : Nat
  fetched : Bool
  saves : List Group
deriving Repr, DecidableEq

/-- The occupancy branch of part_001's message handler.  `groups` is the
bridge's reply to `hue.groups.getAll()`; `val` is the JSON `val` field,
coerced by `val > 0`.  The `if (!sensorName) return` of the source treats
both a missing entry (JS `undefined`) and the empty string as falsy. -/
def handleOccupancy (st : AppState) (groups : List Group) (sensorId : String)
    (val : Int) : OccResult :=
  let occupied := decide (0 < val)
  let vc := sensorValChanged st.data sensorId occupied
  let st' := { st with data := vc.data }
  if !vc.changed || !st.hue then ⟨st', vc.persists, false, []⟩
  else
    let sensorName := (objGet vc.data.sensorNameById sensorId).getD ""
    if sensorName = "" then ⟨st', vc.persists, false, []⟩
    else ⟨st', vc.persists, true,
      occupancyScan groups sensorName occupied st.isNight st.onlyControlAtNight⟩

/-- `data.sensorVals[data.sensorNames[nm]]` of the position branch; the
JS `undefined` (absent key) is falsy when used as an on-state. -/
def groupOccupancy (d : HueData) (nm : String) : Bool :=
  match objGet d.sensorNames nm with
  | some id => (objGet d.sensorVals id).getD false
  | none => false

/-- The group loop of part_001's position branch (lines 220-226): every
group whose sanitized name is a known sensor name is saved with its
on-state set to the stored occupancy (no early return). -/
def nightScan (d : HueData) : List Group → List Group
  | [] => []
  | g :: rest =>
    if (objGet d.sensorNames (sanitizeName g.name)).isSome then
      { g with «on» := groupOccupancy d (sanitizeName g.name) } :: nightScan d rest
    else nightScan d rest

/-- Result of one day/night (sun position) message: the new `isNight`,
whether groups were fetched, and the `hue.groups.save` calls in order. -/
structure PosResult where
  isNight : Option Bool
  fetched : Bool
  saves : List Group
deriving Repr, DecidableEq

/-- The position branch of part_001's message handler (lines 213-228).
`isNight` is reassigned before the guard, and the guard returns early
when the previous value was unknown, unchanged, the bridge handle is
null, or the new value is day (`!isNight`). -/
def handlePosition (st : AppState) (groups : List Group) (msgVal : String) : PosResult :=
  let wasNight := st.isNight
  let newNight := decide (msgVal = "sunset")
  if wasNight = none ∨ some newNight = wasNight ∨ st.hue = false ∨ newNight = false then
    ⟨some newNight, false, []⟩
  else ⟨some newNight, true, nightScan st.data groups⟩

/-- The group loop of main.js's solar branch (lines 176-181): every group
whose sanitized name is a known sensor name is saved with on-state
`isNight && storedOccupancy`. -/
def solarScanMain (d : HueData) (night : Bool) : List Group → List Group
  | [] => []
  | g :: rest =>
    if (objGet d.sensorNames (sanitizeName g.name)).isSome then
      { g with «on» := night && groupOccupancy d (sanitizeName g.name) } :: solarScanMain d night rest
    else solarScanMain d night rest

/-- The solar branch of main.js's message handler (lines 169-186): same
flip detection but without the `!hue` and `!isNight` guards, so both
directions of a real flip resync the groups. -/
def handleSolarMain (isNight : Option Bool) (d : HueData) (groups : List Group)
    (msgVal : String) : PosResult :=
  let newNight := decide (msgVal = "sunset")
  if isNight = none ∨ some newNight = isNight then ⟨some newNight, false, []⟩
  else ⟨some newNight, true, solarScanMain d newNight groups⟩

/-! ## Bridge pairing: the authentication join of `validateBridges` -/

def CONNECTED : String := "connected"

def NO_BRIDGES_FOUND : String := "no_bridges_found"

def NO_LINK_PUSHED : String := "no_link_pushed"

def FAILURE : String := "fail"

/-- Outcome of the authentication join: the status published, and the
group-API calls issued (the authentication path of `validateBridges`
contains none). -/
structure PairOutcome where
  status : String
  groupSaves : List Group
deriving Repr, DecidableEq

/-- part_001 `validateBridges` lines 107-114: join of the per-bridge
`authenticateUser` results (each is `CONNECTED`, `NO_LINK_PUSHED` or
`FAILURE`): publish `connected` iff exactly one success, else `fail` if
any hard failure, else `no_link_pushed`. -/
def validateAuthOutcome (authenticatable : List String) : PairOutcome :=
  if (authenticatable.filter (· == CONNECTED)).length = 1 then ⟨CONNECTED, []⟩
  else if authenticatable.any (· == FAILURE) then ⟨FAILURE, []⟩
  else ⟨NO_LINK_PUSHED, []⟩

/-- The name-map consistency invariant asserted by the spec: the
canonical-name-to-id map and the id-to-name map are mutual inverses. -/
def NameMapsConsistent (d : HueData) : Prop :=
  ∀ id nm : String, objGet d.sensorNames nm = some id ↔ objGet d.sensorNameById id = some nm

/-! ## Helper lemmas about the handlers -/

theorem handleOccupancy_changed {st : AppState} (groups : List Group) {sensorId nm : String}
    (val : Int)
    (hhue : st.hue = true)
    (hch : objGet st.data.sensorVals sensorId ≠ some (decide (0 < val)))
    (hnm : objGet st.data.sensorNameById sensorId = some nm)
    (hne : nm ≠ "") :
    handleOccupancy st groups sensorId val =
      ⟨{ st with data := { st.data with
           sensorVals := objSet st.data.sensorVals sensorId (decide (0 < val)) } },
        1, true, occupancyScan groups nm (decide (0 < val)) st.isNight st.onlyControlAtNight⟩ := by
  simp only [handleOccupancy, sensorValChanged, if_neg hch, hhue, hnm, Option.getD_some,
    Bool.not_true, Bool.or_false, Bool.false_or, if_neg hne]
  rfl

theorem handleOccupancy_unchanged {st : AppState} (groups : List Group) {sensorId : String}
    (val : Int)
    (hch : objGet st.data.sensorVals sensorId = some (decide (0 < val))) :
    handleOccupancy st groups sensorId val = ⟨st, 0, false, []⟩ := by
  simp only [handleOccupancy, sensorValChanged, if_pos hch, Bool.not_false, Bool.true_or]
  rfl

theorem occupancyScan_append (pre post : List Group) (g : Group) (sensorName : String)
    (occupied : Bool) (isNight : Option Bool) (nightOnly : Bool)
    (hpre : ∀ g' ∈ pre, sanitizeName g'.name ≠ sensorName)
    (hg : sanitizeName g.name = sensorName) :
    occupancyScan (pre ++ g :: post) sensorName occupied isNight nightOnly =
      (if occupied && (isNight.getD false || !nightOnly) then [{ g with «on» := true }]
       else if !occupied then [{ g with «on» := false }]
       else [g]) := by
  induction pre with
  | nil => simp [occupancyScan, hg]
  | cons a pre ih =>
    have ha := hpre a (List.mem_cons_self _ _)
    simp only [List.cons_append, occupancyScan, if_neg ha]
    exact ih (fun g' hg' => hpre g' (List.mem_cons_of_mem _ hg'))

/-! ## Claim theorems -/

/-- Claim C9: for every input string, `sanitizeName` is idempotent:
`sanitizeName (sanitizeName x) = sanitizeName x`. -/
theorem sanitizeName_idempotent (s : String) :
    sanitizeName (sanitizeName s) = sanitizeName s :=
  congrArg String.mk (sanitizeList_idem s.data)

/-- Claim C10: a user-initiated disconnect clears only the paired
credential (sets it to null with one persist call, drops the bridge
handle, publishes the empty retained status); the sensor occupancy map,
the name-to-id map, the id-to-name map, the night flag and the policy
flag are all left unchanged. -/
theorem disconnect_clears_only_credential (st : AppState) :
    (disconnect st).st.data.hueUsername = none ∧
    (disconnect st).st.hue = false ∧
    (disconnect st).publishedStatus = none ∧
    (disconnect st).persists = 1 ∧
    (disconnect st).st.data.sensorVals = st.data.sensorVals ∧
    (disconnect st).st.data.sensorNames = st.data.sensorNames ∧
    (disconnect st).st.data.sensorNameById = st.data.sensorNameById ∧
    (disconnect st).st.isNight = st.isNight ∧
    (disconnect st).st.onlyControlAtNight = st.onlyControlAtNight :=
  ⟨rfl, rfl, rfl, rfl, rfl, rfl, rfl, rfl, rfl⟩

/-- Claim C5: when two or more validated bridges authenticate
successfully in one pairing attempt, the published status is not
`connected` (the pairing is left unresolved) and the authentication join
issues no group operations. -/
theorem ambiguous_auth_unresolved (l : List String)
    (h : 2 ≤ (l.filter (· == CONNECTED)).length) :
    (validateAuthOutcome l).status ≠ CONNECTED ∧
    (validateAuthOutcome l).groupSaves = [] := by
  unfold validateAuthOutcome
  rw [if_neg (by omega)]
  by_cases ha : l.any (· == FAILURE) = true
  · rw [if_pos ha]
    exact ⟨by decide, rfl⟩
  · rw [if_neg ha]
    exact ⟨by decide, rfl⟩

/-- Witness for C5: two successful authentications. -/
theorem ambiguous_auth_unresolved_witness :
    (validateAuthOutcome [CONNECTED, CONNECTED]).status ≠ CONNECTED ∧
    (validateAuthOutcome [CONNECTED, CONNECTED]).groupSaves = [] :=
  ambiguous_auth_unresolved [CONNECTED, CONNECTED] (by decide)

/-- Claim C6: with zero authentication successes, the published status is
`no_link_pushed` when every failure was "link not pressed", and `fail`
when any other kind of failure is present. -/
theorem zero_success_failure_status (l : List String)
    (h0 : (l.filter (· == CONNECTED)).length = 0) :
    ((∀ x ∈ l, x = NO_LINK_PUSHED) →
      (validateAuthOutcome l).status = NO_LINK_PUSHED) ∧
    (FAILURE ∈ l → (validateAuthOutcome l).status = FAILURE) := by
  constructor
  · intro hall
    have hany : ¬ l.any (· == FAILURE) = true := by
      intro hx
      rcases List.any_eq_true.mp hx with ⟨x, hxl, hxf⟩
      have hx2 := hall x hxl
      rw [hx2] at hxf
      exact absurd (by simpa using hxf) (by decide)
    unfold validateAuthOutcome
    rw [if_neg (by omega), if_neg hany]
  · intro hf
    have hany : l.any (· == FAILURE) = true :=
      List.any_eq_true.mpr ⟨FAILURE, hf, by simp⟩
    unfold validateAuthOutcome
    rw [if_neg (by omega), if_pos hany]

/-- Witness for C6: one bridge failing with "link not pressed". -/
theorem zero_success_failure_status_witness :
    ((∀ x ∈ [NO_LINK_PUSHED], x = NO_LINK_PUSHED) →
      (validateAuthOutcome [NO_LINK_PUSHED]).status = NO_LINK_PUSHED) ∧
    (FAILURE ∈ [NO_LINK_PUSHED] →
      (validateAuthOutcome [NO_LINK_PUSHED]).status = FAILURE) :=
  zero_success_failure_status [NO_LINK_PUSHED] (by decide)

/-- The state reached from the initial data by renaming sensor "r1" from
canonical name "a" to canonical name "b". -/
def renamedData : HueData :=
  (updateSensorName (updateSensorName initialData "r1" "a").1 "r1" "b").1

/-- Claim C8 counterexample: after a rename, the stale entry "a" still
maps to "r1" in the name-to-id map while the id-to-name map sends "r1" to
"b", so the two maps are not mutually consistent. -/
theorem nameMaps_inconsistent_after_rename :
    objGet renamedData.sensorNames "a" = some "r1" ∧
    objGet renamedData.sensorNameById "r1" = some "b" ∧
    ¬ NameMapsConsistent renamedData := by
  refine ⟨by decide, by decide, ?_⟩
  intro h
  have h1 := (h "r1" "a").mp (by decide)
  have h2 : objGet renamedData.sensorNameById "r1" = some "b" := by decide
  rw [h1] at h2
  exact absurd (Option.some.inj h2) (by decide)

/-- Claim C8 amended: an `updateSensorName` call that performs a write
leaves the freshly written pair mutually consistent (the new name maps to
the id and the id maps back to the new name), but stale entries for a
sensor's previous names are not removed, so the two maps are not kept
globally consistent. -/
theorem updateSensorName_pair_consistent (d : HueData) (id nm : String)
    (h : objGet d.sensorNames nm ≠ some id) :
    objGet (updateSensorName d id nm).1.sensorNames nm = some id ∧
    objGet (updateSensorName d id nm).1.sensorNameById id = some nm := by
  unfold updateSensorName
  rw [if_neg h]
  exact ⟨objGet_objSet_self _ _ _, objGet_objSet_self _ _ _⟩

/-- Witness for the amended C8: first name assignment for sensor "r1". -/
theorem updateSensorName_pair_consistent_witness :
    objGet (updateSensorName initialData "r1" "a").1.sensorNames "a" = some "r1" ∧
    objGet (updateSensorName initialData "r1" "a").1.sensorNameById "r1" = some "a" :=
  updateSensorName_pair_consistent initialData "r1" "a" (by decide)

/-- State for the scenario-A/C1 witness: night, night-only policy, bridge
connected, sensor "r1" named "bedroom", no stored occupancy. -/
def nightPolicyState : AppState :=
  { data := { initialData with sensorNameById := [("r1", "bedroom")] },
    isNight := some true, onlyControlAtNight := true, hue := true }

/-- Claim C1: for an occupancy event that changes the stored value while
the bridge is connected, the first group whose sanitized name equals the
sensor's canonical name is the only group saved (the scan stops there;
earlier groups do not match and later groups are never touched), with its
on-state set by the policy: true only when occupied and (night or not
night-only), false whenever not occupied, and unchanged otherwise. -/
theorem occupancy_first_match_policy (st : AppState) (pre post : List Group) (g : Group)
    (sensorId sensorName : String) (val : Int)
    (hhue : st.hue = true)
    (hch : objGet st.data.sensorVals sensorId ≠ some (decide (0 < val)))
    (hnm : objGet st.data.sensorNameById sensorId = some sensorName)
    (hne : sensorName ≠ "")
    (hpre : ∀ g' ∈ pre, sanitizeName g'.name ≠ sensorName)
    (hg : sanitizeName g.name = sensorName) :
    (handleOccupancy st (pre ++ g :: post) sensorId val).saves =
      [if decide (0 < val) && (st.isNight.getD false || !st.onlyControlAtNight) then
         { g with «on» := true }
       else if !(decide (0 < val)) then { g with «on» := false }
       else g] ∧
    objGet (handleOccupancy st (pre ++ g :: post) sensorId val).st.data.sensorVals sensorId
      = some (decide (0 < val)) := by
  rw [handleOccupancy_changed (pre ++ g :: post) val hhue hch hnm hne]
  constructor
  · show occupancyScan (pre ++ g :: post) sensorName (decide (0 < val))
        st.isNight st.onlyControlAtNight = _
    rw [occupancyScan_append pre post g sensorName _ _ _ hpre hg]
    by_cases h1 : (decide (0 < val) && (st.isNight.getD false || !st.onlyControlAtNight)) = true
    · rw [if_pos h1, if_pos h1]
    · rw [if_neg h1, if_neg h1]
      by_cases h2 : (!decide (0 < val)) = true
      · rw [if_pos h2, if_pos h2]
      · rw [if_neg h2, if_neg h2]
  · show objGet (objSet st.data.sensorVals sensorId (decide (0 < val))) sensorId = _
    exact objGet_objSet_self _ _ _

/-- Witness for C1: scenario A (night, night-only, occupied) with a
non-matching group before and a second matching-name group after the
first match; only the first "Bedroom" group is saved, turned on. -/
theorem occupancy_first_match_policy_witness :
    (handleOccupancy nightPolicyState
        [⟨"Kitchen", false⟩, ⟨"Bedroom", false⟩, ⟨"Bedroom!", true⟩] "r1" 1).saves
      = [⟨"Bedroom", true⟩] ∧
    objGet (handleOccupancy nightPolicyState
        [⟨"Kitchen", false⟩, ⟨"Bedroom", false⟩, ⟨"Bedroom!", true⟩] "r1" 1).st.data.sensorVals
        "r1" = some true := by
  have h := occupancy_first_match_policy nightPolicyState [⟨"Kitchen", false⟩]
    [⟨"Bedroom!", true⟩] ⟨"Bedroom", false⟩ "r1" "bedroom" 1
    rfl (by decide) (by decide) (by decide) (by decide) (by decide)
  simp only [List.cons_append, List.nil_append] at h
  constructor
  · rw [h.1]; decide
  · rw [h.2]; decide

/-- State for the scenario-B/C2 input: day, night-only policy, bridge
connected, sensor "r1" named "room", no stored occupancy. -/
def dayPolicyState : AppState :=
  { data := { initialData with sensorNameById := [("r1", "room")] },
    isNight := some false, onlyControlAtNight := true, hue := true }

/-- Claim C2 counterexample: occupied-while-day with night-only policy.
The persisted occupancy is updated to true, but contrary to the claim a
group-save call IS issued: the matched group is saved (with its on-state
left unchanged), so the saves list is nonempty. -/
theorem daytime_occupancy_still_saves :
    (handleOccupancy dayPolicyState [⟨"Room", false⟩] "r1" 1).saves = [⟨"Room", false⟩] ∧
    (handleOccupancy dayPolicyState [⟨"Room", false⟩] "r1" 1).saves ≠ [] ∧
    objGet (handleOccupancy dayPolicyState [⟨"Room", false⟩] "r1" 1).st.data.sensorVals "r1"
      = some true := by
  refine ⟨by decide, by decide, by decide⟩

/-- Claim C2 amended: for an occupancy event with occupied=true while
isNight=false and onlyControlAtNight=true, the stored occupancy value is
still updated to true, and the first matching group IS saved, but with
its on-state left unchanged (the policy only gates switching the light
on, not the save call). -/
theorem daytime_gated_occupancy_saves_unchanged (st : AppState) (pre post : List Group)
    (g : Group) (sensorId sensorName : String) (val : Int)
    (hnight : st.isNight = some false) (hpol : st.onlyControlAtNight = true)
    (hval : 0 < val)
    (hhue : st.hue = true)
    (hch : objGet st.data.sensorVals sensorId ≠ some (decide (0 < val)))
    (hnm : objGet st.data.sensorNameById sensorId = some sensorName)
    (hne : sensorName ≠ "")
    (hpre : ∀ g' ∈ pre, sanitizeName g'.name ≠ sensorName)
    (hg : sanitizeName g.name = sensorName) :
    (handleOccupancy st (pre ++ g :: post) sensorId val).saves = [g] ∧
    objGet (handleOccupancy st (pre ++ g :: post) sensorId val).st.data.sensorVals sensorId
      = some true := by
  rw [handleOccupancy_changed (pre ++ g :: post) val hhue hch hnm hne]
  have hocc : decide (0 < val) = true := by simpa using hval
  constructor
  · show occupancyScan (pre ++ g :: post) sensorName (decide (0 < val))
        st.isNight st.onlyControlAtNight = _
    rw [occupancyScan_append pre post g sensorName _ _ _ hpre hg, hnight, hpol, hocc]
    simp
  · show objGet (objSet st.data.sensorVals sensorId (decide (0 < val))) sensorId = _
    rw [objGet_objSet_self, hocc]

/-- Witness for the amended C2. -/
theorem daytime_gated_occupancy_saves_unchanged_witness :
    (handleOccupancy dayPolicyState [⟨"Hall", true⟩, ⟨"Room", false⟩] "r1" 2).saves
      = [⟨"Room", false⟩] ∧
    objGet (handleOccupancy dayPolicyState [⟨"Hall", true⟩, ⟨"Room", false⟩] "r1" 2).st.data.sensorVals
        "r1" = some true :=
  daytime_gated_occupancy_saves_unchanged dayPolicyState [⟨"Hall", true⟩] [] ⟨"Room", false⟩
    "r1" "room" 2 rfl rfl (by decide) rfl (by decide) (by decide) (by decide) (by decide)
    (by decide)

/-- Claim C7: delivering the same occupancy event twice with an identical
value produces exactly one group-save call: the first delivery saves one
group, the second finds the stored value unchanged and is a complete
no-op (same state, no persist call, no group fetch, no save). -/
theorem occupancy_event_idempotent (st : AppState) (pre post : List Group) (g : Group)
    (sensorId sensorName : String) (val : Int)
    (hhue : st.hue = true)
    (hch : objGet st.data.sensorVals sensorId ≠ some (decide (0 < val)))
    (hnm : objGet st.data.sensorNameById sensorId = some sensorName)
    (hne : sensorName ≠ "")
    (hpre : ∀ g' ∈ pre, sanitizeName g'.name ≠ sensorName)
    (hg : sanitizeName g.name = sensorName) :
    (handleOccupancy st (pre ++ g :: post) sensorId val).saves.length = 1 ∧
    handleOccupancy (handleOccupancy st (pre ++ g :: post) sensorId val).st
        (pre ++ g :: post) sensorId val =
      ⟨(handleOccupancy st (pre ++ g :: post) sensorId val).st, 0, false, []⟩ := by
  rw [handleOccupancy_changed (pre ++ g :: post) val hhue hch hnm hne]
  constructor
  · show (occupancyScan (pre ++ g :: post) sensorName (decide (0 < val))
        st.isNight st.onlyControlAtNight).length = 1
    rw [occupancyScan_append pre post g sensorName _ _ _ hpre hg]
    by_cases h1 : (decide (0 < val) && (st.isNight.getD false || !st.onlyControlAtNight)) = true
    · rw [if_pos h1]; rfl
    · rw [if_neg h1]
      by_cases h2 : (!decide (0 < val)) = true
      · rw [if_pos h2]; rfl
      · rw [if_neg h2]; rfl
  · apply handleOccupancy_unchanged
    show objGet (objSet st.data.sensorVals sensorId (decide (0 < val))) sensorId = _
    exact objGet_objSet_self _ _ _

/-- Witness for C7: the scenario-A event delivered twice. -/
theorem occupancy_event_idempotent_witness :
    (handleOccupancy nightPolicyState [⟨"Bedroom", false⟩] "r1" 1).saves.length = 1 ∧
    handleOccupancy (handleOccupancy nightPolicyState [⟨"Bedroom", false⟩] "r1" 1).st
        [⟨"Bedroom", false⟩] "r1" 1 =
      ⟨(handleOccupancy nightPolicyState [⟨"Bedroom", false⟩] "r1" 1).st, 0, false, []⟩ :=
  occupancy_event_idempotent nightPolicyState [] [] ⟨"Bedroom", false⟩ "r1" "bedroom" 1
    rfl (by decide) rfl (by decide) (by decide) (by decide)

theorem nightScan_eq_filterMap (d : HueData) : ∀ (groups : List Group),
    nightScan d groups = groups.filterMap (fun g =>
      if (objGet d.sensorNames (sanitizeName g.name)).isSome then
        some { g with «on» := groupOccupancy d (sanitizeName g.name) }
      else none)
  | [] => rfl
  | g :: rest => by
    by_cases h : (objGet d.sensorNames (sanitizeName g.name)).isSome = true
    · simp only [nightScan, if_pos h, List.filterMap_cons, nightScan_eq_filterMap d rest]
    · simp only [nightScan, if_neg h, List.filterMap_cons, nightScan_eq_filterMap d rest]

theorem solarScanMain_eq_filterMap (d : HueData) (night : Bool) : ∀ (groups : List Group),
    solarScanMain d night groups = groups.filterMap (fun g =>
      if (objGet d.sensorNames (sanitizeName g.name)).isSome then
        some { g with «on» := night && groupOccupancy d (sanitizeName g.name) }
      else none)
  | [] => rfl
  | g :: rest => by
    by_cases h : (objGet d.sensorNames (sanitizeName g.name)).isSome = true
    · simp only [solarScanMain, if_pos h, List.filterMap_cons,
        solarScanMain_eq_filterMap d night rest]
    · simp only [solarScanMain, if_neg h, List.filterMap_cons,
        solarScanMain_eq_filterMap d night rest]

/-- State with night active, sensor "r1" named "room" and stored occupied,
bridge connected: the premises of the day/night resync claim. -/
def nightOccupiedState : AppState :=
  { data := { hueUsername := none, sensorVals := [("r1", true)],
              sensorNames := [("room", "r1")], sensorNameById := [("r1", "room")] },
    isNight := some true, onlyControlAtNight := true, hue := true }

/-- Claim C4: a day/night event whose previous night value is unknown, or
whose derived value equals the previous one, triggers no group fetch and
no group saves — in both the part_001 position branch and the main.js
solar branch. -/
theorem solar_noop_without_flip (st : AppState) (groups : List Group) (msgVal : String)
    (h : st.isNight = none ∨ st.isNight = some (decide (msgVal = "sunset"))) :
    (handlePosition st groups msgVal).saves = [] ∧
    (handlePosition st groups msgVal).fetched = false ∧
    (handleSolarMain st.isNight st.data groups msgVal).saves = [] ∧
    (handleSolarMain st.isNight st.data groups msgVal).fetched = false := by
  simp only [handlePosition, handleSolarMain]
  rcases h with h1 | h1
  · rw [if_pos (Or.inl h1), if_pos (Or.inl h1)]
    exact ⟨rfl, rfl, rfl, rfl⟩
  · rw [if_pos (Or.inr (Or.inl h1.symm)), if_pos (Or.inr h1.symm)]
    exact ⟨rfl, rfl, rfl, rfl⟩

/-- Witness for C4: a repeated sunset signal while already night. -/
theorem solar_noop_without_flip_witness :
    (handlePosition nightOccupiedState [⟨"Room", true⟩] "sunset").saves = [] ∧
    (handlePosition nightOccupiedState [⟨"Room", true⟩] "sunset").fetched = false ∧
    (handleSolarMain nightOccupiedState.isNight nightOccupiedState.data
        [⟨"Room", true⟩] "sunset").saves = [] ∧
    (handleSolarMain nightOccupiedState.isNight nightOccupiedState.data
        [⟨"Room", true⟩] "sunset").fetched = false :=
  solar_noop_without_flip nightOccupiedState [⟨"Room", true⟩] "sunset" (Or.inr (by decide))

/-- Claim C3 counterexample: a real flip to day (isNight goes from true to
false at "sunrise") with a known occupied sensor whose matching group is
present and the bridge connected, yet part_001 performs no group fetch
and no group saves — the position branch returns early on `!isNight`. -/
theorem sunrise_flip_no_saves :
    nightOccupiedState.isNight = some true ∧
    nightOccupiedState.hue = true ∧
    (objGet nightOccupiedState.data.sensorNames (sanitizeName "Room")).isSome = true ∧
    (handlePosition nightOccupiedState [⟨"Room", true⟩] "sunrise").isNight = some false ∧
    (handlePosition nightOccupiedState [⟨"Room", true⟩] "sunrise").fetched = false ∧
    (handlePosition nightOccupiedState [⟨"Room", true⟩] "sunrise").saves = [] := by
  refine ⟨rfl, rfl, by decide, by decide, by decide, by decide⟩

/-- Claim C3 amended: on a real flip of the night flag, the part_001
position branch resyncs the groups only when the flip is to night
(at "sunset": every group whose sanitized name is a known sensor name is
saved with on-state equal to the stored occupancy); a flip to day returns
without fetching or saving.  The main.js solar branch resyncs on flips in
both directions, saving every matching group with on-state
`isNight && storedOccupancy`. -/
theorem solar_flip_resync (st : AppState) (groups : List Group) (wasNight : Bool)
    (msgVal : String)
    (hhue : st.hue = true)
    (hst : st.isNight = some wasNight)
    (hflip : decide (msgVal = "sunset") ≠ wasNight) :
    (handlePosition st groups msgVal).saves =
      (if decide (msgVal = "sunset") = true then
        groups.filterMap (fun g =>
          if (objGet st.data.sensorNames (sanitizeName g.name)).isSome then
            some { g with «on» := groupOccupancy st.data (sanitizeName g.name) }
          else none)
       else []) ∧
    (handlePosition st groups msgVal).fetched = decide (msgVal = "sunset") ∧
    (handleSolarMain st.isNight st.data groups msgVal).saves =
      groups.filterMap (fun g =>
        if (objGet st.data.sensorNames (sanitizeName g.name)).isSome then
          some { g with «on» := decide (msgVal = "sunset") && groupOccupancy st.data (sanitizeName g.name) }
        else none) := by
  simp only [handlePosition, handleSolarMain, hst]
  have hmain : ¬ (some wasNight = none ∨ some (decide (msgVal = "sunset")) = some wasNight) := by
    rintro (h1 | h1)
    · cases h1
    · exact hflip (Option.some.inj h1)
  by_cases hn : decide (msgVal = "sunset") = true
  · have hw : wasNight = false := by
      cases hwn : wasNight
      · rfl
      · rw [hn, hwn] at hflip; exact absurd rfl hflip
    have hpos : ¬ (some wasNight = none ∨ some (decide (msgVal = "sunset")) = some wasNight ∨
        st.hue = false ∨ decide (msgVal = "sunset") = false) := by
      rintro (h1 | h1 | h1 | h1)
      · cases h1
      · exact hflip (Option.some.inj h1)
      · rw [hhue] at h1; cases h1
      · rw [hn] at h1; cases h1
    rw [if_neg hpos, if_neg hmain, if_pos hn]
    exact ⟨nightScan_eq_filterMap st.data groups, (by rw [hn]),
      solarScanMain_eq_filterMap st.data _ groups⟩
  · have hn2 : decide (msgVal = "sunset") = false := by
      cases hd : decide (msgVal = "sunset")
      · rfl
      · exact absurd hd hn
    rw [if_pos (Or.inr (Or.inr (Or.inr hn2))), if_neg hmain, if_neg hn]
    refine ⟨rfl, (by rw [hn2]), solarScanMain_eq_filterMap st.data _ groups⟩

/-- Same as `nightOccupiedState` but during the day. -/
def dayOccupiedState : AppState :=
  { nightOccupiedState with isNight := some false }

/-- Witness for the amended C3: sunset flip from day with one matching and
one unmatched group, and the same inputs through the main.js branch. -/
theorem solar_flip_resync_witness :
    (handlePosition dayOccupiedState [⟨"Room", false⟩, ⟨"Hall", false⟩] "sunset").saves =
      (if decide (("sunset" : String) = "sunset") = true then
        (([⟨"Room", false⟩, ⟨"Hall", false⟩] : List Group)).filterMap (fun g =>
          if (objGet dayOccupiedState.data.sensorNames (sanitizeName g.name)).isSome then
            some { g with «on» := groupOccupancy dayOccupiedState.data (sanitizeName g.name) }
          else none)
       else []) ∧
    (handlePosition dayOccupiedState [⟨"Room", false⟩, ⟨"Hall", false⟩] "sunset").fetched =
      decide (("sunset" : String) = "sunset") ∧
    (handleSolarMain dayOccupiedState.isNight dayOccupiedState.data
        [⟨"Room", false⟩, ⟨"Hall", false⟩] "sunset").saves =
      (([⟨"Room", false⟩, ⟨"Hall", false⟩] : List Group)).filterMap (fun g =>
        if (objGet dayOccupiedState.data.sensorNames (sanitizeName g.name)).isSome then
          some { g with «on» := decide (("sunset" : String) = "sunset") && groupOccupancy dayOccupiedState.data (sanitizeName g.name) }
        else none) :=
  solar_flip_resync dayOccupiedState [⟨"Room", false⟩, ⟨"Hall", false⟩] false "sunset"
    rfl rfl (by decide)

end CoreHue
